import Mathlib

/-!
# TkLineNumbers — a shallow embedding of `src/tklinenums/tklinenums.py`

The repository is a single widget class, `TkLineNumbers(Canvas)`, that renders
line numbers for a tkinter `Text` widget and forwards mouse gestures to it.
This file embeds the widget's pure decision logic and its observable effects
on the attached text widget:

* host-supplied queries (pixel-to-index resolution `index("@x,y")`,
  `dlineinfo`, tag elision values, font measurement/metrics, winfo geometry)
  are parameters or fields of an environment record — they are the external
  collaborators the spec lists as out of scope;
* every call the widget makes that *writes* to the text widget is recorded as
  a `TextOp`; canvas drawing is recorded as a `DrawOp`;
* the Tk `after`/`after_cancel` scheduler is modelled by a list of outstanding
  callback ids inside `SchedState`, and the widget's event bindings are a step
  function over `GEvent` traces;
* Python exceptions that the widget code itself can raise (`KeyError` from the
  anchor-dict lookup, `UnboundLocalError` from reading a conditionally
  assigned local, and the repository's own `TkLineNumError` class) appear as
  an `Except PyErr` result.
-/

/-- A resolved text index `"line.col"` as the (line, column) pair Tk compares
lexicographically. Line numbers are 1-based. -/
abbrev Pos := Nat × Nat

/-- An index argument as the widget passes it to the text widget: either a
literal `"line.col"` string, or one of the symbolic index strings the source
uses (`"end"`, `"insert"`, `"insert + 1 line"`). -/
inductive TkIdx
  | lineCol (line col : Nat)
  | endIdx
  | insertMark
  | insertPlusOneLine
deriving Repr, DecidableEq

/-- A mutating call on the attached text widget. The widget's source only ever
emits tag/mark/viewport operations; the content-editing constructors
(`insertText`, `deleteText`, `replaceText`) exist so that the frame condition
"the gutter never edits text" is a statement, not a tautology. -/
inductive TextOp
  | tagAdd (tag : String) (a b : TkIdx)
  | tagRemove (tag : String) (a b : TkIdx)
  | markSet (mark : String) (p : TkIdx)
  | see (p : TkIdx)
  | yviewScrollUnits (n : Int)
  | yviewScrollPixels (n : Int)
  | xviewScrollUnits (n : Int)
  | insertText (p : TkIdx) (s : String)
  | deleteText (a b : TkIdx)
  | replaceText (a b : TkIdx) (s : String)
deriving Repr, DecidableEq

/-- `True` for the constructors that would change the text widget's content.
The embedding proves the widget never emits one. -/
def TextOp.mutatesContent : TextOp → Bool
  | .insertText _ _ => true
  | .deleteText _ _ => true
  | .replaceText _ _ _ => true
  | _ => false

/-- The editor state the spec allows the gutter to touch: the `"sel"` tag, the
`"insert"` mark, and the viewport (`see`, `yview_scroll`, `xview_scroll`). -/
def TextOp.allowedEditorWrite : TextOp → Bool
  | .tagAdd tag _ _ => tag = "sel"
  | .tagRemove tag _ _ => tag = "sel"
  | .markSet mark _ => mark = "insert"
  | .see _ => true
  | .yviewScrollUnits _ => true
  | .yviewScrollPixels _ => true
  | .xviewScrollUnits _ => true
  | _ => false

/-- A viewport-scrolling call (`yview_scroll` / `xview_scroll`). -/
def TextOp.isScroll : TextOp → Bool
  | .yviewScrollUnits _ => true
  | .yviewScrollPixels _ => true
  | .xviewScrollUnits _ => true
  | _ => false

/-- Every op in the list leaves editor content intact and touches only the
selection tag, the insert mark, or the viewport. -/
def editorSafe (ops : List TextOp) : Prop :=
  ops.all (fun op => !op.mutatesContent && op.allowedEditorWrite) = true

/-- `scroll_fix(delta, num)` (module level, lines 15–28): corrects scrolling
numbers across platforms. `SYSTEM = platform.system()` is passed explicitly.
Python `//` is floor division, hence `Int.fdiv`. -/
def scroll_fix (system : String) (delta : Int) (num : Bool) : Int :=
  if (delta = 4 ∨ delta = 5) ∧ num then (if delta = 4 then 1 else -1)
  else if system = "Darwin" then -delta
  else -(Int.fdiv delta 120)

/-- The `colors` constructor argument: `None` (inherit from the text widget),
a static `(fg, bg)` pair, or a zero-argument callback. -/
inductive ColorSource
  | inherited
  | static (fg bg : String)
  | dynamic (f : Unit → String × String)

/-- `set_colors` (lines 394–407): resolves `(foreground_color, bg)` from
`self.colors`, falling back to the text widget's own `fg`/`bg`. -/
def set_colors (colors : ColorSource) (textFg textBg : String) : String × String :=
  match colors with
  | .inherited => (textFg, textBg)
  | .static fg bg => (fg, bg)
  | .dynamic f => f ()

/-- The string `resize` measures (line 391):
`" 1234 " if int(end) <= 1000 else f" {end} "`, where `end` is the line
component of `textwidget.index("end")`. -/
def resize_measure_str (endLine : Nat) : String :=
  if endLine ≤ 1000 then " 1234 " else s!" {endLine} "

/-- `resize` (lines 383–392): sets the canvas width to the measured pixel
width of `resize_measure_str`; `measure` is the host font's `Font.measure`. -/
def resize (measure : String → Int) (endLine : Nat) : Int :=
  measure (resize_measure_str endLine)

/-- The widget fields the gesture handlers and the Tk `after` scheduler read
and write (`__init__`, lines 77–80): `click_pos`, `cancellable_after`,
`self.x`/`self.y`, together with the list of currently outstanding scheduled
`after` callbacks and a fresh-id counter standing for the Tk event loop's
timer table. `pending` holds the ids of callbacks that are scheduled and have
neither fired nor been cancelled. -/
structure SchedState where
  clickPos : Option Pos
  handle : Option Nat
  pending : List Nat
  nextId : Nat
  mx : Option Int
  my : Option Int
deriving Repr, DecidableEq

/-- Field values set in `__init__` (lines 77–80): no anchor, no scheduled
callback, `x`/`y` unset. -/
def initState : SchedState :=
  { clickPos := none, handle := none, pending := [], nextId := 0
    mx := none, my := none }

/-- Tk `compare(a, ">", b)`: lexicographic on (line, column). -/
def posGtB (a b : Pos) : Bool :=
  b.1 < a.1 || (a.1 = b.1 && b.2 < a.2)

/-- `a` at or before `b` in text order. -/
def posLe (a b : Pos) : Prop :=
  a.1 < b.1 ∨ (a.1 = b.1 ∧ a.2 ≤ b.2)

/-- `select_text(x, y)` (lines 356–369): orders the click anchor and the
resolved drag position low-to-high, replaces the `"sel"` tag with that span,
and moves the `"insert"` mark to the drag position. The caller has already
resolved `index(f"@{x}, {y}")` to `drag_pos`. -/
def select_text (click_pos drag_pos : Pos) : List TextOp :=
  let se := if posGtB drag_pos click_pos then (click_pos, drag_pos)
            else (drag_pos, click_pos)
  [TextOp.tagRemove "sel" (TkIdx.lineCol 1 0) TkIdx.endIdx,
   TextOp.tagAdd "sel" (TkIdx.lineCol se.1.1 se.1.2) (TkIdx.lineCol se.2.1 se.2.2),
   TextOp.markSet "insert" (TkIdx.lineCol drag_pos.1 drag_pos.2)]

/-- `shift_click(event)` (lines 371–381): selects between the caret
(`index("insert")`, here `start_pos`) and `index(f"@0,{event.y}")` (here
`end_pos`), swapping when the caret lies after the clicked point. -/
def shift_click (start_pos end_pos : Pos) : List TextOp :=
  let se := if posGtB start_pos end_pos then (end_pos, start_pos)
            else (start_pos, end_pos)
  [TextOp.tagRemove "sel" (TkIdx.lineCol 1 0) TkIdx.endIdx,
   TextOp.tagAdd "sel" (TkIdx.lineCol se.1.1 se.1.2) (TkIdx.lineCol se.2.1 se.2.2)]

/-- `click_see(event)` (lines 241–262). `resolve x y` is the host's
`index(f"@{x},{y}")`; `insertPos` is the current `index("insert")` used by the
shift branch; `st` is `event.state` (1 = shift held). Without shift: clear the
selection, move the caret to the clicked line's column 0, scroll it into view
(`see`), and record `click_pos`. -/
def click_see (resolve : Int → Int → Pos) (insertPos : Pos) (st : Nat)
    (ex ey : Int) (s : SchedState) : SchedState × List TextOp :=
  if st = 1 then (s, shift_click insertPos (resolve 0 ey))
  else
    let line := (resolve ex ey).1
    ({ s with clickPos := some (line, 0) },
     [TextOp.tagRemove "sel" (TkIdx.lineCol 1 0) TkIdx.endIdx,
      TextOp.markSet "insert" (TkIdx.lineCol line 0),
      TextOp.see TkIdx.insertMark])

/-- `unclick(_)` (lines 264–267): sets `click_pos = None` and nothing else —
in particular it does not touch `cancellable_after` or the scheduler. -/
def unclick (s : SchedState) : SchedState × List TextOp :=
  ({ s with clickPos := none }, [])

/-- `double_click(_)` (lines 269–275): clears the selection and selects from
`"insert"` to `"insert + 1 line"`. -/
def double_click (s : SchedState) : SchedState × List TextOp :=
  (s, [TextOp.tagRemove "sel" (TkIdx.lineCol 1 0) TkIdx.endIdx,
       TextOp.tagAdd "sel" TkIdx.insertMark TkIdx.insertPlusOneLine])

/-- `in_widget_select_mouse_drag(event)` (lines 342–354): no-op when the
anchor is `None`; otherwise records `self.x`/`self.y` and selects between the
anchor and `index(f"@{event.x - winfo_width()}, {event.y}")`. `ww` is the
gutter's `winfo_width()`. -/
def in_widget_select_mouse_drag (resolve : Int → Int → Pos) (ww ex ey : Int)
    (s : SchedState) : SchedState × List TextOp :=
  match s.clickPos with
  | none => (s, [])
  | some c =>
    ({ s with mx := some ex, my := some ey },
     select_text c (resolve (ex - ww) ey))

/-- `text_auto_scan(event)` (lines 285–307). Returns early when the anchor is
`None`. Otherwise, when `self.y`/`self.x` lie outside the gutter's
`winfo_height()`/`winfo_width()` box, scrolls the text widget, extends the
selection, and registers a fresh 50 ms `after` callback, storing its id in
`cancellable_after`. Note the source never cancels a previously scheduled
callback here: the fresh id is simply pushed onto the outstanding list. The
`mx`/`my` fields are `some` at every call site in the source
(`mouse_off_screen_scroll` assigns them first; the rescheduled callback runs
after they were assigned), so the wildcard row is unreachable there. -/
def text_auto_scan (w h : Int) (resolve : Int → Int → Pos)
    (s : SchedState) : SchedState × List TextOp :=
  match s.clickPos with
  | none => (s, [])
  | some c =>
    match s.mx, s.my with
    | some x, some y =>
      let scrollOp : Option TextOp :=
        if y ≥ h then some (TextOp.yviewScrollPixels (1 + y - h))
        else if y < 0 then some (TextOp.yviewScrollPixels (-1 + y))
        else if x ≥ w then some (TextOp.xviewScrollUnits 2)
        else if x < 0 then some (TextOp.xviewScrollUnits (-2))
        else none
      match scrollOp with
      | none => (s, [])
      | some op =>
        ({ s with pending := s.nextId :: s.pending, handle := some s.nextId,
                  nextId := s.nextId + 1 },
         op :: select_text c (resolve (x - w) y))
    | _, _ => (s, [])

/-- `mouse_off_screen_scroll(event)` (lines 277–283): stores the event
coordinates in `self.x`/`self.y` and runs `text_auto_scan`. -/
def mouse_off_screen_scroll (w h : Int) (resolve : Int → Int → Pos)
    (ex ey : Int) (s : SchedState) : SchedState × List TextOp :=
  text_auto_scan w h resolve { s with mx := some ex, my := some ey }

/-- `stop_mouse_off_screen_scroll(_)` (lines 309–315): cancels the callback
named by `cancellable_after`, when there is one, and clears the handle. -/
def stop_mouse_off_screen_scroll (s : SchedState) : SchedState × List TextOp :=
  (match s.handle with
   | some hd => { s with pending := s.pending.erase hd, handle := none }
   | none => s, [])

/-- `mouse_scroll(event)` (lines 226–239): scrolls the text widget by
`scroll_fix(event.delta if event.delta else event.num, event.num != "??")`
units. `num = none` models the `"??"` placeholder Tk puts in `event.num` for
`<MouseWheel>` events; `some n` models the X11 `<Button-4>`/`<Button-5>`
button number. -/
def mouse_scroll (system : String) (delta : Int) (num : Option Int)
    (s : SchedState) : SchedState × List TextOp :=
  (s, [TextOp.yviewScrollUnits
        (scroll_fix system (if delta ≠ 0 then delta else num.getD 0) num.isSome)])

/-- `check_side_scroll(event)` (lines 317–340) — present in the source but
bound to no event. `wx` is `winfo_x()`, `ww`/`wh` the gutter's width/height;
`c` the click anchor `select_text` reads. -/
def check_side_scroll (resolve : Int → Int → Pos) (c : Pos)
    (ex ey wx ww wh : Int) : List TextOp :=
  let offSide := ex < wx ∨ ex > wx + ww
  if ¬ offSide then []
  else if ey ≥ wh then
    TextOp.yviewScrollUnits 1 :: select_text c (resolve (ex - ww) ey)
  else if ey < 0 then
    TextOp.yviewScrollUnits (-1) :: select_text c (resolve (ex - ww) ey)
  else []

/-- The Tk events the widget binds (lines 87–99) plus the event loop firing a
scheduled `after` callback. Coordinates are the raw event pixel coordinates;
`st` is `event.state`. -/
inductive GEvent
  | button1 (st : Nat) (ex ey : Int)
  | buttonRelease1
  | doubleButton1
  | button1Motion (ex ey : Int)
  | button1Leave (ex ey : Int)
  | button1Enter
  | afterFires (hid : Nat)
  | mouseWheel (delta : Int) (num : Option Int)
deriving Repr, DecidableEq

/-- One delivered event: dispatches to the handler the source binds to it.
`afterFires hid` models the Tk event loop running an outstanding `after`
callback: the loop consumes the id, then the scheduled `text_auto_scan` body
runs. `w`/`h` are the gutter's `winfo_width()`/`winfo_height()`. -/
def stepEvent (system : String) (w h : Int) (resolve : Int → Int → Pos)
    (insertPos : Pos) (s : SchedState) : GEvent → SchedState
  | .button1 st ex ey => (click_see resolve insertPos st ex ey s).1
  | .buttonRelease1 => (unclick s).1
  | .doubleButton1 => (double_click s).1
  | .button1Motion ex ey => (in_widget_select_mouse_drag resolve w ex ey s).1
  | .button1Leave ex ey => (mouse_off_screen_scroll w h resolve ex ey s).1
  | .button1Enter => (stop_mouse_off_screen_scroll s).1
  | .afterFires hid =>
      if hid ∈ s.pending then
        (text_auto_scan w h resolve { s with pending := s.pending.erase hid }).1
      else s
  | .mouseWheel delta num => (mouse_scroll system delta num s).1

/-- The widget state after a trace of events, starting from `__init__`. -/
def runEvents (system : String) (w h : Int) (resolve : Int → Int → Pos)
    (insertPos : Pos) (evs : List GEvent) : SchedState :=
  evs.foldl (stepEvent system w h resolve insertPos) initState

/-- C6: `resize()` measures `" 1234 "` in the current font when the highest
possible line number (the line of index `"end"`) is at most 1000, and the
literal widest number string `" {N} "` when it exceeds 1000, and sets the
gutter width to that measured pixel width. -/
theorem C6_resize_width (measure : String → Int) (endLine : Nat) :
    (endLine ≤ 1000 → resize measure endLine = measure " 1234 ")
    ∧ (1000 < endLine →
        resize measure endLine = measure (" " ++ toString endLine ++ " ")) := by
  constructor
  · intro h
    simp [resize, resize_measure_str, h]
  · intro h
    have h' : ¬ endLine ≤ 1000 := by omega
    simp [resize, resize_measure_str, h']
    rfl

/-- C6 witness: at 500 lines the gutter measures `" 1234 "`; at 1001 lines it
measures `" 1001 "` (taking the measuring function to be the string length). -/
theorem C6_resize_width_witness :
    resize (fun s => (s.length : Int)) 500 = (" 1234 ".length : Int)
    ∧ resize (fun s => (s.length : Int)) 1001 = ((" " ++ toString (1001 : Nat) ++ " ").length : Int) :=
  ⟨(C6_resize_width (fun s => (s.length : Int)) 500).1 (by norm_num),
   (C6_resize_width (fun s => (s.length : Int)) 1001).2 (by norm_num)⟩

/-- C5 counterexample: on macOS (`platform.system() = "Darwin"`, the branch
for systems reporting small integer step counts) a raw delta of 1 is *not*
used directly: `scroll_fix` returns its negation `-1`. -/
theorem C5_darwin_negates_delta :
    scroll_fix "Darwin" 1 false = -1 ∧ scroll_fix "Darwin" 1 false ≠ 1 := by
  constructor <;> decide

/-- C5 amended: on platforms reporting wheel deltas in multiples of 120
(neither macOS nor an X11 button event) a delta of `120·k` scrolls `|k|` units
with direction opposite to the delta's sign (`scroll_fix` returns `-k`); on
macOS the *negated* raw delta is used (sign inverted, magnitude kept), not the
raw delta directly; X11 wheel-button events 4 and 5 map to `+1` and `-1`. -/
theorem C5_scroll_normalization (system : String) (k d : Int)
    (hsys : system ≠ "Darwin") :
    scroll_fix system (120 * k) false = -k
    ∧ scroll_fix "Darwin" d false = -d
    ∧ scroll_fix system 4 true = 1
    ∧ scroll_fix system 5 true = -1 := by
  refine ⟨?_, ?_, ?_, ?_⟩
  · unfold scroll_fix
    rw [if_neg (by simp), if_neg hsys, Int.mul_fdiv_cancel_left k (by norm_num)]
  · simp [scroll_fix]
  · simp [scroll_fix]
  · simp [scroll_fix]

/-- C5 witness: on a multiples-of-120 platform (`system() = "Windows"`),
a delta of 120 gives one unit opposite the raw sign, a delta of −240 gives two
units the other way; macOS negates a delta of 3; X11 buttons 4/5 give ±1. -/
theorem C5_scroll_normalization_witness :
    scroll_fix "Windows" (120 * 1) false = -1
    ∧ scroll_fix "Windows" (120 * (-2)) false = 2
    ∧ scroll_fix "Darwin" 3 false = -3
    ∧ scroll_fix "Windows" 4 true = 1
    ∧ scroll_fix "Windows" 5 true = -1 :=
  ⟨(C5_scroll_normalization "Windows" 1 3 (by decide)).1,
   by
     have h := (C5_scroll_normalization "Windows" (-2) 3 (by decide)).1
     simpa using h,
   (C5_scroll_normalization "Windows" 1 3 (by decide)).2.1,
   (C5_scroll_normalization "Windows" 1 3 (by decide)).2.2.1,
   (C5_scroll_normalization "Windows" 1 3 (by decide)).2.2.2⟩

/-- Event trace for the auto-scroll overlap: press on the gutter, drag out of
it (arming callback 0), release the button *outside* the gutter (`unclick`
does not cancel callback 0 and re-entry without the button held fires no
`<Button1-Enter>`), press again, and drag out again within the 50 ms delay. -/
def overlapTrace : List GEvent :=
  [GEvent.button1 0 5 5, GEvent.button1Leave 10 (-5), GEvent.buttonRelease1,
   GEvent.button1 0 5 5, GEvent.button1Leave 10 (-5)]

/-- C1 (code bug): after `overlapTrace` two auto-scroll callbacks are
outstanding at once — `text_auto_scan` registered the second `after(50, …)`
without the first having been cancelled — and when the first one then fires it
re-arms itself, so two recursive auto-scroll chains run concurrently. -/
theorem C1_two_outstanding_auto_scroll_callbacks :
    (runEvents "Linux" 50 50 (fun _ _ => ((1 : Nat), (0 : Nat))) (1, 0)
        overlapTrace).pending.length = 2
    ∧ (runEvents "Linux" 50 50 (fun _ _ => ((1 : Nat), (0 : Nat))) (1, 0)
        (overlapTrace ++ [GEvent.afterFires 0])).pending.length = 2 := by
  decide

/-- Event trace for button release while an auto-scroll callback is armed. -/
def releaseTrace : List GEvent :=
  [GEvent.button1 0 5 5, GEvent.button1Leave 10 (-5), GEvent.buttonRelease1]

/-- C2 (code bug): `unclick` clears the click anchor but leaves the scheduled
auto-scroll callback outstanding — after button release `cancellable_after`
still names callback 0 and callback 0 is still pending. -/
theorem C2_unclick_leaves_timer_armed :
    (runEvents "Linux" 50 50 (fun _ _ => ((1 : Nat), (0 : Nat))) (1, 0)
        releaseTrace).clickPos = none
    ∧ (runEvents "Linux" 50 50 (fun _ _ => ((1 : Nat), (0 : Nat))) (1, 0)
        releaseTrace).handle = some 0
    ∧ (runEvents "Linux" 50 50 (fun _ _ => ((1 : Nat), (0 : Nat))) (1, 0)
        releaseTrace).pending = [0] := by
  decide

/-- `text_auto_scan` never changes the click anchor. -/
theorem text_auto_scan_clickPos (w h : Int) (resolve : Int → Int → Pos)
    (s : SchedState) : ((text_auto_scan w h resolve s).1).clickPos = s.clickPos := by
  unfold text_auto_scan
  repeat' split
  all_goals rfl

/-- The click anchor is `None` or a line-start position (column 0). -/
def anchorOk (cp : Option Pos) : Prop :=
  cp = none ∨ ∃ n, cp = some (n, 0)

/-- Every event handler keeps `anchorOk`: only `click_see` and `unclick`
assign `click_pos`, and `click_see` always assigns `f"{line}.0"`. -/
theorem stepEvent_anchorOk (system : String) (w h : Int)
    (resolve : Int → Int → Pos) (insertPos : Pos) (s : SchedState) (e : GEvent)
    (hs : anchorOk s.clickPos) :
    anchorOk (stepEvent system w h resolve insertPos s e).clickPos := by
  cases e with
  | button1 st ex ey =>
      simp only [stepEvent, click_see]
      split
      · exact hs
      · exact Or.inr ⟨(resolve ex ey).1, rfl⟩
  | buttonRelease1 => exact Or.inl rfl
  | doubleButton1 => exact hs
  | button1Motion ex ey =>
      simp only [stepEvent, in_widget_select_mouse_drag]
      split
      · exact hs
      · exact hs
  | button1Leave ex ey =>
      simp only [stepEvent, mouse_off_screen_scroll]
      rw [text_auto_scan_clickPos]
      exact hs
  | button1Enter =>
      simp only [stepEvent, stop_mouse_off_screen_scroll]
      split
      · exact hs
      · exact hs
  | afterFires hid =>
      simp only [stepEvent]
      split
      · rw [text_auto_scan_clickPos]
        exact hs
      · exact hs
  | mouseWheel delta num => exact hs

/-- C10: after any trace of bound events from `__init__`, the widget's
`click_pos` is `None` or a position of the form `"{line}.0"` — every drag
selection is anchored at the start of the clicked line. -/
theorem C10_click_anchor_is_line_start (system : String) (w h : Int)
    (resolve : Int → Int → Pos) (insertPos : Pos) (evs : List GEvent) :
    anchorOk (runEvents system w h resolve insertPos evs).clickPos := by
  suffices h' : ∀ s : SchedState, anchorOk s.clickPos →
      anchorOk ((evs.foldl (stepEvent system w h resolve insertPos) s)).clickPos by
    exact h' initState (Or.inl rfl)
  induction evs with
  | nil => intro s hs; exact hs
  | cons e es ih =>
      intro s hs
      exact ih _ (stepEvent_anchorOk system w h resolve insertPos s e hs)

/-- `compare(a, ">", b) = True` puts `b` at or before `a`. -/
theorem posLe_of_posGtB_true {a b : Pos} (h : posGtB a b = true) : posLe b a := by
  simp only [posGtB, Bool.or_eq_true, Bool.and_eq_true, decide_eq_true_eq] at h
  simp only [posLe]
  omega

/-- `compare(a, ">", b) = False` puts `a` at or before `b`. -/
theorem posLe_of_posGtB_false {a b : Pos} (h : posGtB a b = false) : posLe a b := by
  simp only [posGtB, Bool.or_eq_false_iff, Bool.and_eq_false_iff,
    decide_eq_false_iff_not] at h
  simp only [posLe]
  rcases h with ⟨h1, h2⟩
  rcases h2 with h2 | h2
  · exact Or.inl (by omega)
  · omega

/-- C7: a drag with a non-`None` anchor selects exactly the span between the
anchor and the pointer's resolved text position, endpoints ordered
low-to-high whichever way the drag went, and moves the caret (`"insert"`) to
the drag endpoint. -/
theorem C7_drag_selection_low_to_high (resolve : Int → Int → Pos)
    (ww ex ey : Int) (s : SchedState) (c : Pos) (h : s.clickPos = some c) :
    ∃ lo hi,
      (in_widget_select_mouse_drag resolve ww ex ey s).2 =
        [TextOp.tagRemove "sel" (TkIdx.lineCol 1 0) TkIdx.endIdx,
         TextOp.tagAdd "sel" (TkIdx.lineCol lo.1 lo.2) (TkIdx.lineCol hi.1 hi.2),
         TextOp.markSet "insert"
           (TkIdx.lineCol (resolve (ex - ww) ey).1 (resolve (ex - ww) ey).2)]
      ∧ posLe lo hi
      ∧ ((lo = c ∧ hi = resolve (ex - ww) ey)
         ∨ (lo = resolve (ex - ww) ey ∧ hi = c)) := by
  unfold in_widget_select_mouse_drag
  rw [h]
  by_cases hgt : posGtB (resolve (ex - ww) ey) c = true
  · exact ⟨c, resolve (ex - ww) ey,
      by simp [select_text, hgt],
      posLe_of_posGtB_true hgt, Or.inl ⟨rfl, rfl⟩⟩
  · have hgt' : posGtB (resolve (ex - ww) ey) c = false := by
      simpa using hgt
    exact ⟨resolve (ex - ww) ey, c,
      by simp [select_text, hgt'],
      posLe_of_posGtB_false hgt', Or.inr ⟨rfl, rfl⟩⟩

/-- A widget state holding a click anchor at line 3, column 0. -/
def dragState : SchedState := { initState with clickPos := some (3, 0) }

/-- C7 witness: with the anchor at line 3 and the pointer resolving to line 9,
the selection is expressed as 3.0 → 9.0 and the caret lands on 9.0. -/
theorem C7_drag_selection_low_to_high_witness :
    ∃ lo hi,
      (in_widget_select_mouse_drag (fun _ _ => ((9 : Nat), (0 : Nat))) 0 0 0
          dragState).2 =
        [TextOp.tagRemove "sel" (TkIdx.lineCol 1 0) TkIdx.endIdx,
         TextOp.tagAdd "sel" (TkIdx.lineCol lo.1 lo.2) (TkIdx.lineCol hi.1 hi.2),
         TextOp.markSet "insert" (TkIdx.lineCol 9 0)]
      ∧ posLe lo hi
      ∧ ((lo = ((3 : Nat), (0 : Nat)) ∧ hi = ((9 : Nat), (0 : Nat)))
         ∨ (lo = ((9 : Nat), (0 : Nat)) ∧ hi = ((3 : Nat), (0 : Nat)))) := by
  simpa using C7_drag_selection_low_to_high
    (fun _ _ => ((9 : Nat), (0 : Nat))) 0 0 0 dragState (3, 0) rfl

/-- C8 amended: a no-modifier click clears the selection, moves the caret to
the clicked line's column 0, records `click_pos` there, and scrolls the caret
into view with `see` — and that is all: in particular no one-unit nudge
scroll is issued, at a viewport edge or anywhere else. -/
theorem C8_click_effects (resolve : Int → Int → Pos) (insertPos : Pos)
    (st : Nat) (ex ey : Int) (s : SchedState) (hst : st ≠ 1) :
    (click_see resolve insertPos st ex ey s).2 =
      [TextOp.tagRemove "sel" (TkIdx.lineCol 1 0) TkIdx.endIdx,
       TextOp.markSet "insert" (TkIdx.lineCol (resolve ex ey).1 0),
       TextOp.see TkIdx.insertMark]
    ∧ (click_see resolve insertPos st ex ey s).1.clickPos
        = some ((resolve ex ey).1, 0)
    ∧ ((click_see resolve insertPos st ex ey s).2).all
        (fun op => !op.isScroll) = true := by
  unfold click_see
  rw [if_neg hst]
  exact ⟨rfl, rfl, by simp [TextOp.isScroll]⟩

/-- C8 witness: a plain click (state 0) resolving to line 5. -/
theorem C8_click_effects_witness :
    (click_see (fun _ _ => ((5 : Nat), (0 : Nat))) (1, 0) 0 8 40 initState).2 =
      [TextOp.tagRemove "sel" (TkIdx.lineCol 1 0) TkIdx.endIdx,
       TextOp.markSet "insert" (TkIdx.lineCol 5 0),
       TextOp.see TkIdx.insertMark]
    ∧ (click_see (fun _ _ => ((5 : Nat), (0 : Nat))) (1, 0) 0 8 40
        initState).1.clickPos = some (5, 0)
    ∧ ((click_see (fun _ _ => ((5 : Nat), (0 : Nat))) (1, 0) 0 8 40
        initState).2).all (fun op => !op.isScroll) = true := by
  simpa using C8_click_effects (fun _ _ => ((5 : Nat), (0 : Nat))) (1, 0) 0 8 40
    initState (by decide)

/-- C8 counterexample: a click at pixel (5, 0) — the very top edge of the
viewport, resolving to the first visible line — emits no `yview_scroll` or
`xview_scroll` at all (its whole effect list is clear-selection, set-caret,
`see`), contradicting the claimed one-unit nudge scroll at the edges. -/
theorem C8_no_edge_nudge_scroll :
    (click_see (fun _ _ => ((1 : Nat), (0 : Nat))) (1, 0) 0 5 0 initState).2 =
      [TextOp.tagRemove "sel" (TkIdx.lineCol 1 0) TkIdx.endIdx,
       TextOp.markSet "insert" (TkIdx.lineCol 1 0),
       TextOp.see TkIdx.insertMark]
    ∧ ((click_see (fun _ _ => ((1 : Nat), (0 : Nat))) (1, 0) 0 5 0
        initState).2).all (fun op => !op.isScroll) = true := by
  decide

/-- The Python exceptions the widget's own code can produce: the repository's
`TkLineNumError` class (lines 31–32, defined with no payload and never
raised), a `KeyError` from the anchor-dict lookup
`{"left": "nw", "right": "ne", "center": "n"}[self.justify]`, and an
`UnboundLocalError` from reading a local (`max_lines`, `_font`) that is only
assigned when `self.tilde is not None`. -/
inductive PyErr
  | tkLineNumError
  | keyError (key : String)
  | unboundLocal (name : String)
deriving Repr, DecidableEq

/-- `True` exactly when a result is the raised `TkLineNumError`. -/
def isTkLineNumError {α : Type} : Except PyErr α → Bool
  | .error .tkLineNumError => true
  | _ => false

/-- The result of `textwidget.dlineinfo(f"{lineno}.0")` when the line is
visible: `(x, y, width, height, baseline)`. -/
structure DLineInfo where
  x : Int
  y : Int
  w : Int
  h : Int
  baseline : Int
deriving Repr, DecidableEq

/-- A `create_text` call on the canvas. `x` is rational because the `center`
branch computes `int(self["width"]) / 2` with Python float division. -/
inductive DrawOp
  | text (x : Rat) (y : Int) (txt : String) (anchor : String) (font : String)
      (fill : String)
deriving Repr, DecidableEq

/-- The anchor dict `{"left": "nw", "right": "ne", "center": "n"}` indexed by
`self.justify` (lines 205 and 221); `none` is Python's `KeyError`. -/
def anchorOf (justify : String) : Option String :=
  if justify = "left" then some "nw"
  else if justify = "right" then some "ne"
  else if justify = "center" then some "n"
  else none

/-- The x coordinate of a glyph:
`0 if justify == "left" else int(self["width"]) if justify == "right" else
int(self["width"]) / 2` (lines 198–202 and 214–218). -/
def xpos (justify : String) (width : Int) : Rat :=
  if justify = "left" then 0
  else if justify = "right" then (width : Rat)
  else (width : Rat) / 2

/-- Everything `redraw` queries from the attached text widget and host fonts:
viewport line span, the insert line, the `"end"` index line, geometry, the
font string and its resolved metrics, `Font.measure`, the widget's own
colors, and per-line elision/draw-info. `lineTagElide lineno` lists, for each
tag on `f"{lineno}.0"`, `getboolean(tag_cget(tag, "elide") or "false")`. -/
structure RedrawEnv where
  firstLine : Int
  lastLine : Int
  insertLine : Int
  endLine : Nat
  winfoHeight : Int
  fontSpec : String
  fontLinespace : Int
  measure : String → Int
  textFg : String
  textBg : String
  lineTagElide : Int → List Bool
  dlineinfo : Int → Option DLineInfo

/-- `line_elided` (lines 170–175): any covering tag with a truthy elide
value. -/
def line_elided (env : RedrawEnv) (lineno : Int) : Bool :=
  (env.lineTagElide lineno).any id

/-- One iteration of `redraw`'s line loop (lines 168–224). The branch
condition is Python's
`line_elided or dlineinfo is None and self.tilde is not None`
(`and` binds tighter than `or`). Inside that branch the source reads the
locals `max_lines` and `_font`, which are assigned only under
`if self.tilde is not None:` (lines 127–159) — `maxLines` and `linespace`
are `none` when they are unassigned, and reading them raises
`UnboundLocalError` exactly as Python does (`max_lines` first, at line 184,
then `_font` at line 203). -/
def redraw_line (justify : String) (width : Int) (tilde : Option String)
    (maxLines : Option Int) (linespace : Option Int) (fg : String)
    (fontSpec : String) (lineElided : Bool) (dli : Option DLineInfo)
    (lineno : Int) : Except PyErr (List DrawOp) :=
  if lineElided ∨ (dli.isNone ∧ tilde.isSome) then
    match maxLines with
    | none => .error (.unboundLocal "max_lines")
    | some m =>
      if lineno ≤ m then
        match tilde, linespace with
        | some t, some ls =>
          match anchorOf justify with
          | none => .error (.keyError justify)
          | some anch =>
            .ok [DrawOp.text (xpos justify width) ((lineno - 1) * ls)
                  (if justify ≠ "center" then " " ++ t ++ " " else t)
                  anch fontSpec fg]
        | _, _ => .error (.unboundLocal "_font")
      else .ok []
  else
    match dli with
    | some info =>
      match anchorOf justify with
      | none => .error (.keyError justify)
      | some anch =>
        .ok [DrawOp.text (xpos justify width) info.y
              (if justify ≠ "center" then " " ++ toString lineno ++ " "
               else toString lineno)
              anch fontSpec fg]
    | none => .ok []

/-- The loop over `range(first_line, _range)`, raising out of the loop on the
first error exactly as Python does. -/
def redrawLines (env : RedrawEnv) (justify : String) (width : Int)
    (tilde : Option String) (maxLines : Option Int) (linespace : Option Int)
    (fg : String) : List Int → Except PyErr (List DrawOp)
  | [] => .ok []
  | l :: ls =>
    match redraw_line justify width tilde maxLines linespace fg env.fontSpec
        (line_elided env l) (env.dlineinfo l) l with
    | .error e => .error e
    | .ok ops =>
      match redrawLines env justify width tilde maxLines linespace fg ls with
      | .error e => .error e
      | .ok rest => .ok (ops ++ rest)

/-- `range(first, stop)` as the list of line numbers the loop visits. -/
def lineRange (first stop : Int) : List Int :=
  (List.range (stop - first).toNat).map (fun i => first + (i : Int))

/-- `redraw()` (lines 107–224). Resizes (line 111, fixing the gutter width
the glyphs use), resolves colors (line 112), clears the canvas, computes the
loop bound `_range` (lines 118–165: `last_line + 1`, or with a tilde
configured and `last_line < max_lines`,
`last_line + max_lines + 1 - insert_line`), and draws each line. `max_lines`
is `winfo_height() // linespace` (line 159), assigned only when a tilde is
configured. -/
def redraw (env : RedrawEnv) (justify : String) (colors : ColorSource)
    (tilde : Option String) : Except PyErr (List DrawOp) :=
  let width := resize env.measure env.endLine
  let fg := (set_colors colors env.textFg env.textBg).1
  let last_line := env.lastLine
  let maxLines : Option Int :=
    if tilde.isSome then some (Int.fdiv env.winfoHeight env.fontLinespace)
    else none
  let range_ : Int :=
    match maxLines with
    | some m =>
      if last_line < m then last_line + m + 1 - env.insertLine
      else last_line + 1
    | none => last_line + 1
  redrawLines env justify width tilde maxLines
    (if tilde.isSome then some env.fontLinespace else none) fg
    (lineRange env.firstLine range_)

/-- `__init__` (lines 45–105) as far as exceptions are concerned: it stores
its arguments, registers event bindings and the text widget's
`yscrollcommand` (host-side registrations with no editor-content effect),
resolves colors, and runs the initial `redraw()` (line 105). It contains no
`raise` statement; the only exceptions that can escape construction are the
ones the initial `redraw` produces. -/
def TkLineNumbersNew (env : RedrawEnv) (justify : String)
    (colors : ColorSource) (tilde : Option String) :
    Except PyErr SchedState :=
  match redraw env justify colors tilde with
  | .error e => .error e
  | .ok _ => .ok initState

/-- `redraw_line` never raises `TkLineNumError`: its only errors are
`KeyError` and `UnboundLocalError`. -/
theorem redraw_line_no_tkErr (justify : String) (width : Int)
    (tilde : Option String) (maxLines : Option Int) (linespace : Option Int)
    (fg fontSpec : String) (lineElided : Bool) (dli : Option DLineInfo)
    (lineno : Int) :
    isTkLineNumError (redraw_line justify width tilde maxLines linespace fg
      fontSpec lineElided dli lineno) = false := by
  unfold redraw_line
  repeat' split
  all_goals rfl

/-- Neither does the drawing loop. -/
theorem redrawLines_no_tkErr (env : RedrawEnv) (justify : String)
    (width : Int) (tilde : Option String) (maxLines : Option Int)
    (linespace : Option Int) (fg : String) (ls : List Int) :
    isTkLineNumError (redrawLines env justify width tilde maxLines linespace
      fg ls) = false := by
  induction ls with
  | nil => rfl
  | cons l ls ih =>
      unfold redrawLines
      split
      · next e heq =>
          have h := redraw_line_no_tkErr justify width tilde maxLines linespace
            fg env.fontSpec (line_elided env l) (env.dlineinfo l) l
          rw [heq] at h
          exact h
      · split
        · next e heq =>
            rw [heq] at ih
            exact ih
        · rfl

/-- Draw info for a visible line at the top of the viewport. -/
def dliSample : DLineInfo := { x := 0, y := 0, w := 10, h := 14, baseline := 14 }

/-- A document whose line 1 is in the visible range and carries a tag with a
truthy elide value, with no tilde configured. -/
def envElided : RedrawEnv :=
  { firstLine := 1, lastLine := 1, insertLine := 1, endLine := 2,
    winfoHeight := 100, fontSpec := "TkFixedFont", fontLinespace := 14,
    measure := fun str => (str.length : Int), textFg := "black",
    textBg := "white", lineTagElide := fun _ => [true],
    dlineinfo := fun _ => some dliSample }

/-- The same document with line 1 unelided but reported "not visible"
(`dlineinfo` returns `None`). -/
def envHidden : RedrawEnv :=
  { envElided with lineTagElide := fun _ => [], dlineinfo := fun _ => none }

/-- The same document with line 1 unelided and visible. -/
def envVisible : RedrawEnv :=
  { envElided with lineTagElide := fun _ => [] }

/-- C4 (code bug): with no tilde configured, `redraw` on a document whose
line 1 is elided raises `UnboundLocalError` — the branch at line 182 is
entered (`line_elided` is true) and line 184 reads `max_lines`, which is only
assigned when `self.tilde is not None` — rather than skipping the line. A
line whose `dlineinfo` is `None` (and not elided) is indeed skipped
silently. -/
theorem C4_elided_line_crashes_without_tilde :
    redraw envElided "left" ColorSource.inherited none
      = .error (.unboundLocal "max_lines")
    ∧ redraw envHidden "left" ColorSource.inherited none = .ok [] := by
  constructor <;> rfl

/-- C3 counterexample: constructing the widget with the unsupported
justification `"banana"` does not raise `TkLineNumError` — the constructor
has no validation and no `raise`; what actually escapes (here, through the
initial `redraw` of a document with a visible line) is a `KeyError` from the
anchor-dict lookup. -/
theorem C3_bad_justify_raises_KeyError :
    TkLineNumbersNew envVisible "banana" ColorSource.inherited none
      = .error (.keyError "banana")
    ∧ isTkLineNumError
        (TkLineNumbersNew envVisible "banana" ColorSource.inherited none)
      = false := by
  constructor <;> rfl

/-- C3 amended: `TkLineNumError` is defined (lines 31–32) but never raised:
no constructor input — unsupported justification included — produces it, and
no `redraw` does either; the second half of the claim (never raised during
normal operation) holds vacuously. An unsupported justification value
instead surfaces later as a `KeyError` from the anchor-dict lookup, which the
last conjunct characterises: the lookup fails for exactly the justification
values outside `left`/`right`/`center`. -/
theorem C3_TkLineNumError_never_raised (env : RedrawEnv) (justify : String)
    (colors : ColorSource) (tilde : Option String) :
    isTkLineNumError (redraw env justify colors tilde) = false
    ∧ isTkLineNumError (TkLineNumbersNew env justify colors tilde) = false
    ∧ (anchorOf justify = none ↔
        justify ≠ "left" ∧ justify ≠ "right" ∧ justify ≠ "center") := by
  have h1 : isTkLineNumError (redraw env justify colors tilde) = false :=
    redrawLines_no_tkErr env justify _ tilde _ _ _ _
  refine ⟨h1, ?_, ?_⟩
  · unfold TkLineNumbersNew
    split
    · next e heq =>
        rw [heq] at h1
        cases e
        · exact h1
        · rfl
        · rfl
    · rfl
  · unfold anchorOf
    repeat' split
    all_goals simp_all

/-- `redraw`, `resize` and `set_colors` interact with the text widget only
through read queries (`index`, `winfo_height`, `cget`, `tag_names`,
`tag_cget`, `dlineinfo`, the `fg`/`bg` options); every write they perform
targets the gutter's own canvas (`delete("all")`, `create_text`,
`config(width=…)`, `self["bg"]`). Their text-widget write trace is
therefore empty. -/
def render_textwidget_writes : List TextOp := []

/-- C9: no operation of the widget mutates the editor's text content, and the
only editor state any of them writes is the `"sel"` tag, the `"insert"` mark
and the viewport scroll position — for every handler the source binds
(`mouse_scroll`, `click_see` with and without shift, `unclick`,
`double_click`, `in_widget_select_mouse_drag`, `mouse_off_screen_scroll` /
`text_auto_scan`, `stop_mouse_off_screen_scroll`), the unbound
`check_side_scroll`, the selection helpers, and the renderer/color-resolution
operations, whose text-widget write trace is empty. -/
theorem C9_no_editor_content_mutation (system : String) (delta : Int)
    (num : Option Int) (resolve : Int → Int → Pos) (insertPos : Pos)
    (st : Nat) (ex ey wx ww wh w h : Int) (s : SchedState)
    (c startP endP clickP dragP : Pos) :
    editorSafe (mouse_scroll system delta num s).2
    ∧ editorSafe (click_see resolve insertPos st ex ey s).2
    ∧ editorSafe (unclick s).2
    ∧ editorSafe (double_click s).2
    ∧ editorSafe (in_widget_select_mouse_drag resolve ww ex ey s).2
    ∧ editorSafe (mouse_off_screen_scroll w h resolve ex ey s).2
    ∧ editorSafe (text_auto_scan w h resolve s).2
    ∧ editorSafe (stop_mouse_off_screen_scroll s).2
    ∧ editorSafe (check_side_scroll resolve c ex ey wx ww wh)
    ∧ editorSafe (select_text clickP dragP)
    ∧ editorSafe (shift_click startP endP)
    ∧ editorSafe render_textwidget_writes := by
  refine ⟨rfl, ?_, rfl, rfl, ?_, ?_, ?_, rfl, ?_, rfl, rfl, rfl⟩
  · unfold click_see
    split <;> rfl
  · unfold in_widget_select_mouse_drag
    split <;> rfl
  · unfold mouse_off_screen_scroll text_auto_scan
    repeat' split
    all_goals rfl
  · unfold text_auto_scan
    repeat' split
    all_goals rfl
  · unfold check_side_scroll
    dsimp only
    repeat' split
    all_goals rfl
